import Mathlib

/-!
Verification of the dimple_utils configuration loader (`config_utils.py`) and the
LLM retry/dispatch abstraction (`llm_base.py`, `llm_openai_utils.py`).

The Python code is shallowly embedded: strings are Lean `String`s manipulated through
their underlying `List Char`, the module-level `config` / `secret_config` dictionaries
become explicit `Store` values passed to the accessor functions, and file-system reads
become a `FileSt` value describing what the read would have produced (absent file,
read error, or the list of lines).  Logging calls are modelled only where a claim
depends on them (the `warns` field of `LoadOut`); `print` calls are not modelled.
-/

namespace DimpleUtils

/-! ### Python string primitives

Each helper models the corresponding Python `str` method on the character list of
the string, using structural recursion so that everything kernel-evaluates. -/

/-- Python `str.strip()` with no argument: drop whitespace from both ends. -/
def pyStripData (l : List Char) : List Char :=
  ((l.dropWhile Char.isWhitespace).reverse.dropWhile Char.isWhitespace).reverse

/-- Python `str.strip()` on a `String`. -/
def pyStrip (s : String) : String := ⟨pyStripData s.data⟩

/-- Python `str.lower()`. -/
def pyLower (s : String) : String := ⟨s.data.map Char.toLower⟩

/-- Python `str.upper()`. -/
def pyUpper (s : String) : String := ⟨s.data.map Char.toUpper⟩

/-- Python `c in s` for a single character `c`. -/
def pyHasChar (s : String) (c : Char) : Bool := s.data.contains c

/-- Python list/substring containment check on character lists:
`sublistAt pat l` is true when `pat` occurs contiguously inside `l`. -/
def infixCheck (pat : List Char) : List Char → Bool
  | [] => pat.isEmpty
  | c :: t => pat.isPrefixOf (c :: t) || infixCheck pat t

/-- Python `sub in s` for strings. -/
def pyHasSub (s sub : String) : Bool := infixCheck sub.data s.data

/-- Python `s.split(sep, 1)` restricted to a single-character separator:
returns the parts before and after the FIRST occurrence of `c`, or `none`
when `c` does not occur (so `none` models Python's `c not in s`). -/
def splitFirstAux (c : Char) : List Char → Option (List Char × List Char)
  | [] => none
  | x :: xs =>
    if x = c then some ([], xs)
    else
      match splitFirstAux c xs with
      | some (a, b) => some (x :: a, b)
      | none => none

/-- One step of Python `str.replace(pat, rep)`: fuelled leftmost, non-overlapping
replacement (the fuel is instantiated with the length of the subject, which is
enough because every step consumes at least one character for nonempty `pat`). -/
def replaceFuel (pat rep : List Char) : Nat → List Char → List Char
  | 0, l => l
  | fuel + 1, l =>
    match l with
    | [] => []
    | c :: cs =>
      if pat.isPrefixOf (c :: cs) then rep ++ replaceFuel pat rep fuel ((c :: cs).drop pat.length)
      else c :: replaceFuel pat rep fuel cs

/-- Python `s.replace(pat, rep)`. -/
def pyReplace (s pat rep : String) : String :=
  ⟨replaceFuel pat.data rep.data s.data.length s.data⟩

/-- Head-character test (`str.startswith` for a single character). -/
def headIs : List Char → Char → Bool
  | [], _ => false
  | c :: _, d => c == d

/-- Last-character test (`str.endswith` for a single character). -/
def lastIs (l : List Char) (c : Char) : Bool :=
  match l.getLast? with
  | some d => d == c
  | none => false

/-! ### Properties-file parser (`_parse_properties_file`) -/

/-- Python's quote removal inside `_parse_properties_file`:
`value[1:-1]` is applied when the value both starts and ends with `"` (or both
with a single quote).  Note that a single quote character satisfies both tests
and is therefore reduced to the empty value, exactly as in the source. -/
def stripQuotesData (l : List Char) : List Char :=
  if headIs l '"' && lastIs l '"' then (l.drop 1).dropLast
  else if headIs l '\'' && lastIs l '\'' then (l.drop 1).dropLast
  else l

/-- What one line of a properties file contributes (skip, key/value pair, or a
malformed-line warning), following the loop body of `_parse_properties_file`. -/
inductive LineEffect where
  | skip
  | entry (key value : String)
  | malformed
deriving DecidableEq

/-- The per-line processing of `_parse_properties_file`: strip the line, skip
blank lines and comments, split at the first `=`, strip key and value, remove
surrounding quotes; a stripped line without `=` is malformed. -/
def processLine (line : String) : LineEffect :=
  let l := pyStripData line.data
  if l = [] then .skip
  else if headIs l '#' then .skip
  else
    match splitFirstAux '=' l with
    | some (k, v) => .entry ⟨pyStripData k⟩ ⟨stripQuotesData (pyStripData v)⟩
    | none => .malformed

/-- `_parse_properties_file` over the lines of the file: the list of key/value
entries in line order (duplicates preserved; the dictionary semantics of the
Python code are recovered by folding the entries into a `Store`, where a later
entry for the same key wins) together with the number of warned-about
malformed lines. -/
def parse_properties_file (ls : List String) : List (String × String) × Nat :=
  ls.foldl
    (fun acc line =>
      match processLine line with
      | .skip => acc
      | .entry k v => (acc.1 ++ [(k, v)], acc.2)
      | .malformed => (acc.1, acc.2 + 1))
    ([], 0)

/-! ### Stores (Python dictionaries of configuration values) -/

/-- A Python `dict[str, str]` viewed as a lookup function. -/
abbrev Store := String → Option String

/-- The empty dictionary. -/
def Store.empty : Store := fun _ => none

/-- Dictionary assignment `d[k] = v`. -/
def Store.set (s : Store) (k v : String) : Store :=
  fun k' => if k' = k then some v else s k'

/-- Folding a list of entries into a store; a later entry for the same key
wins, which is exactly the effect of successive dictionary assignments. -/
def storeFold (l : List (String × String)) (c : Store) : Store :=
  l.foldl (fun s kv => s.set kv.1 kv.2) c

/-- First-some choice on `Option String` (used to state precedence results). -/
def oor (a b : Option String) : Option String :=
  match a with
  | some x => some x
  | none => b

/-- The value the LAST entry of `l` with key `k` carries, if any: this is what
a sequence of dictionary assignments leaves behind for `k`. -/
def lookupLast (l : List (String × String)) (k : String) : Option String :=
  match l with
  | [] => none
  | kv :: rest => oor (lookupLast rest k) (if kv.1 = k then some kv.2 else none)

theorem oor_none (a : Option String) : oor a none = a := by
  cases a <;> rfl

theorem oor_assoc (a b c : Option String) : oor (oor a b) c = oor a (oor b c) := by
  cases a <;> rfl

theorem Store.set_apply (c : Store) (a b k : String) :
    (c.set a b) k = oor (if a = k then some b else none) (c k) := by
  by_cases h : k = a
  · subst h; simp [Store.set, oor]
  · have h' : ¬(a = k) := fun hh => h hh.symm
    simp [Store.set, h, h', oor]

theorem storeFold_apply (l : List (String × String)) (c : Store) (k : String) :
    storeFold l c k = oor (lookupLast l k) (c k) := by
  induction l generalizing c with
  | nil => simp [storeFold, lookupLast, oor]
  | cons kv t ih =>
    show storeFold t (c.set kv.1 kv.2) k = _
    rw [ih, Store.set_apply, ← oor_assoc]
    simp [lookupLast]

/-! ### `load_properties` -/

/-- What reading a file would produce: the file is absent, the read raises, or
it yields a list of lines. -/
inductive FileSt where
  | absent
  | unreadable
  | lines (ls : List String)
deriving DecidableEq

/-- Warnings logged by `load_properties` (`logging.warning` calls that a claim
refers to). -/
inductive LoadWarn where
  | overrideMissing
  | noOverrideGiven
  | secretsMissing
deriving DecidableEq

/-- The errors `load_properties` can raise.  The source raises
`FileNotFoundError` for a missing default file and re-raises parse/read errors;
the spec groups all of these under `ConfigurationError`. -/
inductive ConfigurationError where
  | defaultMissing
  | defaultUnreadable
  | overrideUnreadable
  | secretsUnreadable
deriving DecidableEq

/-- The state `load_properties` leaves behind: the module-level `config` and
`secret_config` dictionaries, plus the warnings logged along the way. -/
structure LoadOut where
  config : Store
  secret_config : Store
  warns : List LoadWarn

/-- One step of the environment-variable merge loop: a variable whose value
contains `$` is skipped; otherwise `_dot_` in the name becomes `.` and the
variable overrides the key. -/
def envMergeStep (c : Store) (kv : String × String) : Store :=
  if pyHasChar kv.2 '$' then c else c.set (pyReplace kv.1 "_dot_" ".") kv.2

/-- The environment-variable merge loop of `load_properties`. -/
def envMerge (env : List (String × String)) (c : Store) : Store :=
  env.foldl envMergeStep c

/-- The secret-marker convention of `load_properties`:
`key.upper().startswith('SECRET_') or 'SECRET' in key.upper()`. -/
def is_secret_key (k : String) : Bool :=
  "SECRET_".data.isPrefixOf (pyUpper k).data || pyHasSub (pyUpper k) "SECRET"

/-- One step of the secrets-file split loop: marker keys go to the private
store, all others override the public store. -/
def secretsSplitStep (p : Store × Store) (kv : String × String) : Store × Store :=
  if is_secret_key kv.1 then (p.1, p.2.set kv.1 kv.2)
  else (p.1.set kv.1 kv.2, p.2)

/-- The secrets-file split loop of `load_properties`, starting from the public
store built so far and an empty private store. -/
def secretsSplit (sp : List (String × String)) (c : Store) : Store × Store :=
  sp.foldl secretsSplitStep (c, Store.empty)

/-- `load_properties(default_file, override_file, secrets_file)`.

The file system and process environment are passed explicitly: `defaultF` is
what reading the default file yields, `overrideF` is `none` when no override
file is specified (neither as an argument nor through `OVERRIDE_FILE`),
`env` is the process environment (after `dotenv.load_dotenv()`) in iteration
order, and `secretsF` is `none` when no secrets file is specified. -/
def load_properties (defaultF : FileSt) (overrideF : Option FileSt)
    (env : List (String × String)) (secretsF : Option FileSt) :
    Except ConfigurationError LoadOut :=
  match defaultF with
  | .absent => .error .defaultMissing
  | .unreadable => .error .defaultUnreadable
  | .lines dl =>
    match overrideF with
    | some .unreadable => .error .overrideUnreadable
    | _ =>
      let cfg0 : Store := storeFold (parse_properties_file dl).1 Store.empty
      let cfg1 : Store :=
        match overrideF with
        | some (.lines ol) => storeFold (parse_properties_file ol).1 cfg0
        | _ => cfg0
      let w1 : List LoadWarn :=
        match overrideF with
        | some .absent => [.overrideMissing]
        | none => [.noOverrideGiven]
        | _ => []
      let cfg2 : Store := envMerge env cfg1
      match secretsF with
      | some .unreadable => .error .secretsUnreadable
      | some .absent => .ok ⟨cfg2, Store.empty, w1 ++ [.secretsMissing]⟩
      | some (.lines sl) =>
        let p := secretsSplit (parse_properties_file sl).1 cfg2
        .ok ⟨p.1, p.2, w1⟩
      | none => .ok ⟨cfg2, Store.empty, w1⟩

/-- The public configuration a `load_properties` call produced (`Store.empty`
when the call raised, in which case the module-level `config` is unusable). -/
def configOf (r : Except ConfigurationError LoadOut) : Store :=
  match r with
  | .ok o => o.config
  | .error _ => Store.empty

/-- The `LoadOut` of a successful `load_properties` call (a vacuous empty state
when the call raised). -/
def loadOutD (r : Except ConfigurationError LoadOut) : LoadOut :=
  match r with
  | .ok o => o
  | .error _ => ⟨Store.empty, Store.empty, []⟩

/-- Whether a `load_properties` call raised. -/
def isErr (r : Except ConfigurationError LoadOut) : Bool :=
  match r with
  | .ok _ => false
  | .error _ => true

/-! ### Accessors over the loaded configuration

The module-level `config` may still be `None` (before any `load_properties`
call), so the public accessors take an `Option Store`. -/

/-- `get_secret(key)`: consults only the private `secret_config` store and
returns `None` (with a logged warning, not modelled) when the key is absent. -/
def get_secret (out : LoadOut) (k : String) : Option String :=
  match out.secret_config k with
  | some v => some v
  | none => none

/-- `set_property(key, value)`: a dictionary assignment on the public store,
and a silent no-op when `config` is still `None`. -/
def set_property (cfg : Option Store) (k v : String) : Option Store :=
  match cfg with
  | some c => some (c.set k v)
  | none => none

/-- `get_property(key, fallback)`. -/
def get_property (cfg : Option Store) (k : String) (fallback : Option String) :
    Option String :=
  match cfg with
  | some c =>
    match c k with
    | some v => some v
    | none => fallback
  | none => fallback

/-! ### Python numeric coercions (`int(...)`, `float(...)` on strings)

`int` and `float` on a string strip surrounding whitespace, allow a sign, and
allow single underscores between digits; `int` requires a nonempty all-digit
body, `float` additionally accepts a fractional part, an exponent, and the
special words inf/infinity/nan (case-insensitively).  On any other input they
raise `ValueError`, modelled as `none`. -/

/-- Digit run with single underscores between digits, accumulating the value;
fails (Python `ValueError`) on any non-digit or a misplaced underscore. -/
def digitsUAux : List Char → Nat → Option Nat
  | [], acc => some acc
  | '_' :: rest, acc =>
    match rest with
    | [] => none
    | c :: cs => if c.isDigit then digitsUAux cs (acc * 10 + (c.toNat - 48)) else none
  | c :: cs, acc => if c.isDigit then digitsUAux cs (acc * 10 + (c.toNat - 48)) else none

/-- A full digit body (at least one digit, underscores between digits). -/
def natCore : List Char → Option Nat
  | [] => none
  | c :: cs => if c.isDigit then digitsUAux cs (c.toNat - 48) else none

/-- `int(s)` after stripping: optional sign then a digit body. -/
def pyIntCore : List Char → Option Int
  | '+' :: rest => (natCore rest).map Int.ofNat
  | '-' :: rest => (natCore rest).map (fun n => -(n : Int))
  | l => (natCore l).map Int.ofNat

/-- Python `int(s)` for a string `s`. -/
def pyInt (s : String) : Option Int := pyIntCore (pyStripData s.data)

/-- The values Python `float(...)` can produce, precision aside. -/
inductive PyFloat where
  | finite (q : ℚ)
  | infinite (neg : Bool)
  | nan
deriving DecidableEq

/-- Greedy digit run (with underscores between digits) that stops at the first
character that cannot continue the run, returning value, digit count and the
rest; a dangling or doubled underscore is a hard failure. -/
def groupAux : List Char → Nat → Nat → Option (Nat × Nat × List Char)
  | [], acc, n => some (acc, n, [])
  | '_' :: rest, acc, n =>
    match rest with
    | [] => none
    | c :: cs => if c.isDigit then groupAux cs (acc * 10 + (c.toNat - 48)) (n + 1) else none
  | c :: cs, acc, n =>
    if c.isDigit then groupAux cs (acc * 10 + (c.toNat - 48)) (n + 1)
    else some (acc, n, c :: cs)

/-- Exponent digits: a full digit body interpreted as a natural number. -/
def expDigits (l : List Char) : Option Int := (natCore l).map Int.ofNat

/-- Exponent part after `e`/`E`: optional sign then digits. -/
def expPart : List Char → Option Int
  | '+' :: r => expDigits r
  | '-' :: r => (expDigits r).map Neg.neg
  | r => expDigits r

/-- The numeric body of `float(s)` (sign already removed):
`[digits][.digits][(e|E)[sign]digits]` with at least one mantissa digit. -/
def floatNumeric (l : List Char) : Option ℚ :=
  let ip : Option (Nat × Nat × List Char) :=
    match l with
    | c :: cs => if c.isDigit then groupAux cs (c.toNat - 48) 1 else some (0, 0, l)
    | [] => some (0, 0, [])
  match ip with
  | none => none
  | some (iv, icnt, rest1) =>
    let fr : Option (Nat × Nat × List Char) :=
      match rest1 with
      | '.' :: cs =>
        match cs with
        | c :: cs2 => if c.isDigit then groupAux cs2 (c.toNat - 48) 1 else some (0, 0, cs)
        | [] => some (0, 0, [])
      | _ => some (0, 0, rest1)
    match fr with
    | none => none
    | some (fv, fcnt, rest2) =>
      if icnt + fcnt = 0 then none
      else
        let base : ℚ := (iv : ℚ) + (fv : ℚ) / ((10 : ℚ) ^ fcnt)
        match rest2 with
        | [] => some base
        | 'e' :: cs => (expPart cs).map (fun ex => base * (10 : ℚ) ^ ex)
        | 'E' :: cs => (expPart cs).map (fun ex => base * (10 : ℚ) ^ ex)
        | _ => none

/-- `float(s)` after stripping: optional sign, then inf/infinity/nan or a
numeric body. -/
def pyFloatCore (l : List Char) : Option PyFloat :=
  let signSplit : Bool × List Char :=
    match l with
    | '+' :: r => (false, r)
    | '-' :: r => (true, r)
    | r => (false, r)
  let neg := signSplit.1
  let rest := signSplit.2
  let low := rest.map Char.toLower
  if low = "inf".data || low = "infinity".data then some (.infinite neg)
  else if low = "nan".data then some .nan
  else
    match floatNumeric rest with
    | some q => some (.finite (if neg then -q else q))
    | none => none

/-- Python `float(s)` for a string `s`. -/
def pyFloat (s : String) : Option PyFloat := pyFloatCore (pyStripData s.data)

/-- `get_int_property(key, fallback)`: the stored value coerced with `int`,
with the `ValueError` caught and replaced by the fallback. -/
def get_int_property (cfg : Option Store) (k : String) (fallback : Int) : Int :=
  match cfg with
  | some c =>
    match c k with
    | some v =>
      match pyInt v with
      | some n => n
      | none => fallback
    | none => fallback
  | none => fallback

/-- `get_bool_property(key, fallback)`: the lowered stored value is compared
against the tuples `('true','1','yes','on')` and `('false','0','no','off')`;
anything else is a coercion failure replaced by the fallback. -/
def get_bool_property (cfg : Option Store) (k : String) (fallback : Bool) : Bool :=
  match cfg with
  | some c =>
    match c k with
    | some v =>
      let lv := pyLower v
      if (["true", "1", "yes", "on"] : List String).contains lv then true
      else if (["false", "0", "no", "off"] : List String).contains lv then false
      else fallback
    | none => fallback
  | none => fallback

/-- `get_float_property(key, fallback)`: the stored value coerced with `float`,
with the `ValueError` caught and replaced by the fallback. -/
def get_float_property (cfg : Option Store) (k : String) (fallback : PyFloat) : PyFloat :=
  match cfg with
  | some c =>
    match c k with
    | some v =>
      match pyFloat v with
      | some q => q
      | none => fallback
    | none => fallback
  | none => fallback

/-! ### `BaseLLM`: retry executor and `infer_query` -/

/-- How a `_handle_retry_logic` call ends: a successful result, the wrapping
`Exception(...) from e` raised when the last attempt failed retryably
(the spec's `ExhaustedRetriesError`), the unwrapped re-raise of a
non-retryable error, or the implicit `None` returned when the `for` loop body
never runs (`retries <= 0`). -/
inductive RetryOutcome (ε α : Type) where
  | ok (a : α)
  | exhausted (last : ε)
  | raised (e : ε)
  | noneResult
deriving DecidableEq

/-- The observable behaviour of one `_handle_retry_logic` call: the outcome,
how many times the wrapped operation ran, and the delays slept between
attempts, in order. -/
structure RetryTrace (ε α : Type) where
  outcome : RetryOutcome ε α
  attempts : Nat
  sleeps : List Nat
deriving DecidableEq

/-- The `for attempt in range(retries)` loop of `_handle_retry_logic`.
`op i` is what the wrapped operation does on its `i`-th run (0-based); `i` is
the current attempt index and `r` the number of iterations still available.
A retryable failure with iterations remaining sleeps `delay` and continues; a
retryable failure on the last iteration becomes `exhausted`; a non-retryable
failure is re-raised unwrapped. -/
def retryAux (isR : ε → Bool) (delay : Nat) (op : Nat → Except ε α) :
    Nat → Nat → RetryTrace ε α
  | _, 0 => ⟨.noneResult, 0, []⟩
  | i, r + 1 =>
    match op i with
    | .ok a => ⟨.ok a, 1, []⟩
    | .error e =>
      if isR e && (r != 0) then
        let t := retryAux isR delay op (i + 1) r
        ⟨t.outcome, t.attempts + 1, delay :: t.sleeps⟩
      else if isR e then ⟨.exhausted e, 1, []⟩
      else ⟨.raised e, 1, []⟩

/-- `_handle_retry_logic(operation_name, operation_func, max_retries)` with the
effective retry count already resolved; `range` of a non-positive number is
empty, hence `Int.toNat`. -/
def handle_retry_logic (isR : ε → Bool) (delay : Nat) (op : Nat → Except ε α)
    (retries : Int) : RetryTrace ε α :=
  retryAux isR delay op 0 retries.toNat

/-- The retryable-pattern list of `BaseLLM._is_retryable_error` (identical to
`OpenAIClient.RATE_LIMIT_ERROR_LIST`). -/
def retryable_error_list : List String :=
  ["Rate limit reached for",
   "Read timed out",
   "Connection reset by peer",
   "The server is overloaded or not ready yet"]

/-- `BaseLLM._is_retryable_error`: substring match of `str(e)` against the
pattern list. -/
def is_retryable_error (msg : String) : Bool :=
  retryable_error_list.any (fun p => pyHasSub msg p)

/-- The `LLMResponse` dataclass. -/
structure LLMResponse where
  text_reply : String
  input_tokens : Int
  output_tokens : Int
  time_taken_ms : Int
deriving DecidableEq

/-- The instance attributes of a `BaseLLM` that `infer_query` reads. -/
structure BaseLLMState where
  model : String
  retry_delay : Nat
  max_retries : Int
  max_response_tokens : Int
  temperature : ℚ
  initialized : Bool

/-- The effective per-call parameters `infer_query` computes. -/
structure EffectiveParams where
  model : String
  temperature : ℚ
  max_tokens : Int
  max_retries : Int
deriving DecidableEq

/-- The parameter overlay of `infer_query`:
`actual_model = model or self.model` and
`actual_max_tokens = max_tokens or self.max_response_tokens` use Python `or`,
so a falsy override (empty model string, zero max tokens) falls back to the
instance default, while `temperature` and `max_retries` are compared against
`None` and keep every supplied value. -/
def effective_params (st : BaseLLMState) (model? : Option String)
    (temperature? : Option ℚ) (max_tokens? : Option Int) (max_retries? : Option Int) :
    EffectiveParams :=
  { model :=
      match model? with
      | some m => if m = "" then st.model else m
      | none => st.model
    temperature :=
      match temperature? with
      | some t => t
      | none => st.temperature
    max_tokens :=
      match max_tokens? with
      | some mt => if mt = 0 then st.max_response_tokens else mt
      | none => st.max_response_tokens
    max_retries :=
      match max_retries? with
      | some mr => mr
      | none => st.max_retries }

/-- The error `infer_query` raises before doing anything when the client was
never initialized (`RuntimeError` in the source, `NotInitializedError` in the
spec's taxonomy). -/
inductive InferErr where
  | notInitialized
deriving DecidableEq

/-- `BaseLLM.infer_query`: check initialization, overlay the per-call
overrides, then run the provider call (abstracted as `call`, receiving the
effective parameters and the attempt number) under `_handle_retry_logic` with
the effective retry count, classifying errors with `_is_retryable_error`.
Wall-clock stamping of `time_taken_ms` is not modelled. -/
def infer_query (st : BaseLLMState) (model? : Option String) (temperature? : Option ℚ)
    (max_tokens? : Option Int) (max_retries? : Option Int)
    (call : EffectiveParams → Nat → Except String LLMResponse) :
    Except InferErr (RetryTrace String LLMResponse) :=
  if st.initialized then
    let eff := effective_params st model? temperature? max_tokens? max_retries?
    .ok (handle_retry_logic is_retryable_error st.retry_delay (call eff) eff.max_retries)
  else .error .notInitialized

/-! ### `OpenAIClient._initialize_openai_client` -/

/-- What reading a key file yields. -/
inductive FileRead where
  | missing
  | content (s : String)
deriving DecidableEq

/-- The construction-time failures of `_initialize_openai_client`: a supplied
key file that does not exist (`FileNotFoundError`) and an unresolvable
credential (`ValueError`; the spec's `CredentialError`). -/
inductive CredentialError where
  | keyFileNotFound
  | noApiKey
deriving DecidableEq

/-- Python truthiness of an optional string (`None` and the empty string are
falsy). -/
def truthyStr : Option String → Bool
  | none => false
  | some s => s != ""

/-- `OpenAIClient._initialize_openai_client(api_key, key_file)`: resolve the
credential through the priority chain (direct parameter, key-file parameter,
`OPENAI_API_KEY`, configuration-referenced key file when configuration was
loaded), then require the resolved key to be truthy.  `env_key` is the value
of `OPENAI_API_KEY`, `config_key_file` is what reading the
configuration-referenced key file yields. -/
def initialize_openai_client (api_key : Option String) (key_file : Option FileRead)
    (env_key : Option String) (config_loaded : Bool) (config_key_file : FileRead) :
    Except CredentialError String :=
  let resolved : Except CredentialError (Option String) :=
    if truthyStr api_key then .ok api_key
    else
      match key_file with
      | some .missing => .error .keyFileNotFound
      | some (.content s) => .ok (some (pyStrip s))
      | none =>
        if truthyStr env_key then .ok env_key
        else if config_loaded then
          match config_key_file with
          | .content s => .ok (some (pyStrip s))
          | .missing => .ok none
        else .ok none
  match resolved with
  | .error e => .error e
  | .ok r =>
    match r with
    | some s => if s != "" then .ok s else .error .noApiKey
    | none => .error .noApiKey

/-! ### Lemmas about the merge phases -/

/-- The environment variables that actually take part in the merge: variables
whose value contains `$` are dropped, and `_dot_` in the name becomes `.`. -/
def envEffective (env : List (String × String)) : List (String × String) :=
  env.filterMap
    (fun kv => if pyHasChar kv.2 '$' then none else some (pyReplace kv.1 "_dot_" ".", kv.2))

theorem envMerge_eq_storeFold (env : List (String × String)) (c : Store) (k : String) :
    envMerge env c k = storeFold (envEffective env) c k := by
  induction env generalizing c with
  | nil => rfl
  | cons kv t ih =>
    by_cases h : pyHasChar kv.2 '$' = true
    · show envMerge t (envMergeStep c kv) k = _
      rw [show envMergeStep c kv = c from by simp [envMergeStep, h]]
      rw [ih]
      have : envEffective (kv :: t) = envEffective t := by
        simp [envEffective, List.filterMap_cons, h]
      rw [this]
    · show envMerge t (envMergeStep c kv) k = _
      have hf : pyHasChar kv.2 '$' = false := by
        cases hx : pyHasChar kv.2 '$' <;> simp_all
      rw [show envMergeStep c kv = c.set (pyReplace kv.1 "_dot_" ".") kv.2 from by
        simp [envMergeStep, hf]]
      rw [ih]
      have : envEffective (kv :: t)
          = (pyReplace kv.1 "_dot_" ".", kv.2) :: envEffective t := by
        simp [envEffective, List.filterMap_cons, hf]
      rw [this]
      rfl

theorem secretsSplit_config (sp : List (String × String)) (c s : Store) (k : String) :
    (sp.foldl secretsSplitStep (c, s)).1 k
      = oor (lookupLast (sp.filter fun kv => !is_secret_key kv.1) k) (c k) := by
  induction sp generalizing c s with
  | nil => simp [lookupLast, oor]
  | cons kv t ih =>
    by_cases h : is_secret_key kv.1 = true
    · show (t.foldl secretsSplitStep (secretsSplitStep (c, s) kv)).1 k = _
      rw [show secretsSplitStep (c, s) kv = (c, s.set kv.1 kv.2) from by
        simp [secretsSplitStep, h]]
      rw [ih]
      simp [List.filter_cons, h]
    · have hf : is_secret_key kv.1 = false := by
        cases hx : is_secret_key kv.1 <;> simp_all
      show (t.foldl secretsSplitStep (secretsSplitStep (c, s) kv)).1 k = _
      rw [show secretsSplitStep (c, s) kv = (c.set kv.1 kv.2, s) from by
        simp [secretsSplitStep, hf]]
      rw [ih, Store.set_apply, ← oor_assoc]
      have : (kv :: t).filter (fun kv => !is_secret_key kv.1)
          = kv :: t.filter (fun kv => !is_secret_key kv.1) := by
        simp [List.filter_cons, hf]
      rw [this]
      have : lookupLast (kv :: t.filter fun kv => !is_secret_key kv.1) k
          = oor (lookupLast (t.filter fun kv => !is_secret_key kv.1) k)
              (if kv.1 = k then some kv.2 else none) := rfl
      rw [this, oor_assoc]

theorem secretsSplit_secret (sp : List (String × String)) (c s : Store) (k : String) :
    (sp.foldl secretsSplitStep (c, s)).2 k
      = oor (lookupLast (sp.filter fun kv => is_secret_key kv.1) k) (s k) := by
  induction sp generalizing c s with
  | nil => simp [lookupLast, oor]
  | cons kv t ih =>
    by_cases h : is_secret_key kv.1 = true
    · show (t.foldl secretsSplitStep (secretsSplitStep (c, s) kv)).2 k = _
      rw [show secretsSplitStep (c, s) kv = (c, s.set kv.1 kv.2) from by
        simp [secretsSplitStep, h]]
      rw [ih, Store.set_apply, ← oor_assoc]
      have : (kv :: t).filter (fun kv => is_secret_key kv.1)
          = kv :: t.filter (fun kv => is_secret_key kv.1) := by
        simp [List.filter_cons, h]
      rw [this]
      rfl
    · have hf : is_secret_key kv.1 = false := by
        cases hx : is_secret_key kv.1 <;> simp_all
      show (t.foldl secretsSplitStep (secretsSplitStep (c, s) kv)).2 k = _
      rw [show secretsSplitStep (c, s) kv = (c.set kv.1 kv.2, s) from by
        simp [secretsSplitStep, hf]]
      rw [ih]
      simp [List.filter_cons, hf]

/-! ### Lemmas about the retry loop -/

theorem retryAux_attempts_le {ε α : Type} (isR : ε → Bool) (delay : Nat)
    (op : Nat → Except ε α) (r i : Nat) :
    (retryAux isR delay op i r).attempts ≤ r := by
  induction r generalizing i with
  | zero => simp [retryAux]
  | succ r ih =>
    unfold retryAux
    cases hop : op i with
    | ok a => simp
    | error e =>
      dsimp only
      by_cases hc : (isR e && (r != 0)) = true
      · simp only [hc, if_true]
        exact Nat.succ_le_succ (ih (i + 1))
      · rw [if_neg hc]
        by_cases hr : isR e = true
        · rw [if_pos hr]
          exact Nat.succ_le_succ (Nat.zero_le r)
        · rw [if_neg hr]
          exact Nat.succ_le_succ (Nat.zero_le r)

theorem retryAux_all_retryable {ε α : Type} (isR : ε → Bool) (delay : Nat)
    (op : Nat → Except ε α) (errF : Nat → ε)
    (hop : ∀ j, op j = .error (errF j) ∧ isR (errF j) = true) :
    ∀ r i, 1 ≤ r →
      retryAux isR delay op i r
        = ⟨.exhausted (errF (i + r - 1)), r, List.replicate (r - 1) delay⟩ := by
  intro r
  induction r with
  | zero => intro i h; omega
  | succ r ih =>
    intro i _
    unfold retryAux
    rw [(hop i).1]
    cases r with
    | zero =>
      simp [(hop i).2]
    | succ r' =>
      have hcond : (isR (errF i) && ((r' + 1) != 0)) = true := by
        simp [(hop i).2]
      simp only [hcond, if_true]
      rw [ih (i + 1) (Nat.succ_le_succ (Nat.zero_le _))]
      simp only [List.replicate]
      have harith : i + 1 + (r' + 1) - 1 = i + (r' + 1 + 1) - 1 := by omega
      rw [harith]
      norm_num

theorem retryAux_first_not_retryable {ε α : Type} (isR : ε → Bool) (delay : Nat)
    (op : Nat → Except ε α) (i r : Nat) (e : ε)
    (hop : op i = .error e) (hnr : isR e = false) :
    retryAux isR delay op i (r + 1) = ⟨.raised e, 1, []⟩ := by
  unfold retryAux
  rw [hop]
  simp [hnr]

theorem retryAux_success_after {ε α : Type} (isR : ε → Bool) (delay : Nat)
    (op : Nat → Except ε α) (errF : Nat → ε) (a : α) :
    ∀ j i r, j < r →
      (∀ t, t < j → op (i + t) = .error (errF (i + t)) ∧ isR (errF (i + t)) = true) →
      op (i + j) = .ok a →
      retryAux isR delay op i r = ⟨.ok a, j + 1, List.replicate j delay⟩ := by
  intro j
  induction j with
  | zero =>
    intro i r hr _ hok
    cases r with
    | zero => omega
    | succ r' =>
      unfold retryAux
      rw [show i + 0 = i from rfl] at hok
      rw [hok]
      rfl
  | succ j ih =>
    intro i r hr hfail hok
    cases r with
    | zero => omega
    | succ r' =>
      unfold retryAux
      have h0 := hfail 0 (Nat.succ_pos j)
      rw [show i + 0 = i from rfl] at h0
      rw [h0.1]
      have hr' : r' ≠ 0 := by omega
      have hcond : (isR (errF i) && (r' != 0)) = true := by
        simp [h0.2, hr']
      simp only [hcond, if_true]
      have hfail' : ∀ t, t < j →
          op (i + 1 + t) = .error (errF (i + 1 + t)) ∧ isR (errF (i + 1 + t)) = true := by
        intro t ht
        have := hfail (t + 1) (by omega)
        rwa [show i + (t + 1) = i + 1 + t from by omega] at this
      have hok' : op (i + 1 + j) = .ok a := by
        rwa [show i + (j + 1) = i + 1 + j from by omega] at hok
      rw [ih (i + 1) r' (by omega) hfail' hok']
      simp [List.replicate]

/-! ### Claim C7: the properties-file parser -/

theorem splitFirstAux_none_iff (c : Char) (l : List Char) :
    splitFirstAux c l = none ↔ l.contains c = false := by
  induction l with
  | nil => simp [splitFirstAux]
  | cons x xs ih =>
    unfold splitFirstAux
    by_cases h : x = c
    · subst h
      simp [List.contains_cons]
    · rw [if_neg h]
      have hne : (c == x) = false := by
        simp only [beq_eq_false_iff_ne, ne_eq]
        exact fun hh => h hh.symm
      rw [List.contains_cons, hne, Bool.false_or]
      cases hs : splitFirstAux c xs with
      | none =>
        rw [ih.mp hs]
        simp
      | some p =>
        have hc : xs.contains c = true := by
          cases hcc : xs.contains c with
          | true => rfl
          | false => rw [ih.mpr hcc] at hs; cases hs
        rw [hc]
        simp

theorem parse_properties_file_append (ls : List String) (l : String) :
    parse_properties_file (ls ++ [l])
      = (match processLine l with
         | .skip => parse_properties_file ls
         | .entry k v =>
             ((parse_properties_file ls).1 ++ [(k, v)], (parse_properties_file ls).2)
         | .malformed =>
             ((parse_properties_file ls).1, (parse_properties_file ls).2 + 1)) := by
  unfold parse_properties_file
  rw [List.foldl_append]
  cases hp : processLine l <;> simp [hp]

/-- Modelled from the spec for comparison with `stripQuotesData`: a value
wrapped in a matching PAIR of double quotes or a matching pair of single
quotes (so at least two characters) has those quotes stripped; any other
value, including a value that is a single quote character, is unchanged. -/
def specStripQuotes (l : List Char) : List Char :=
  if decide (2 ≤ l.length) && headIs l '"' && lastIs l '"' then (l.drop 1).dropLast
  else if decide (2 ≤ l.length) && headIs l '\'' && lastIs l '\'' then (l.drop 1).dropLast
  else l

/-- C7 counterexample: on the line `k="` the stripped value is the single
character `"`, which is not wrapped in a matching pair of quotes, so the claim
says the produced pair is `(k, ")`; the parser instead strips the lone quote
and produces `(k, "")`. -/
theorem parse_properties_file_lone_quote_cex :
    processLine "k=\"" = .entry "k" ""
    ∧ specStripQuotes (pyStripData "\"".data) = "\"".data
    ∧ ("" : String).data ≠ "\"".data := by
  refine ⟨by decide, by decide, by decide⟩

/-- C7 (amended): the parser produces exactly the pairs from lines containing
an equals sign, where blank lines and lines starting with a hash are ignored,
each remaining line with an equals sign is split at the first equals sign with
key and value whitespace-stripped, a value that both starts and ends with a
double quote (or both with a single quote) has its first and last characters
removed — in particular a value wrapped in a matching pair of quotes loses
those quotes, and a value that is a single lone quote character becomes empty —
and every line with no equals sign increments the warning count and is skipped
without ever aborting the parse. -/
theorem parse_properties_file_characterization (ls : List String) (l : String) :
    (processLine l = .skip → parse_properties_file (ls ++ [l]) = parse_properties_file ls)
    ∧ (∀ k v, processLine l = .entry k v →
        parse_properties_file (ls ++ [l])
          = ((parse_properties_file ls).1 ++ [(k, v)], (parse_properties_file ls).2))
    ∧ (processLine l = .malformed →
        parse_properties_file (ls ++ [l])
          = ((parse_properties_file ls).1, (parse_properties_file ls).2 + 1))
    ∧ (pyStripData l.data = [] ∨ headIs (pyStripData l.data) '#' = true →
        processLine l = .skip)
    ∧ (∀ k v, splitFirstAux '=' (pyStripData l.data) = some (k, v) →
        pyStripData l.data ≠ [] → headIs (pyStripData l.data) '#' = false →
        processLine l = .entry ⟨pyStripData k⟩ ⟨stripQuotesData (pyStripData v)⟩)
    ∧ (splitFirstAux '=' (pyStripData l.data) = none →
        pyStripData l.data ≠ [] → headIs (pyStripData l.data) '#' = false →
        processLine l = .malformed)
    ∧ (splitFirstAux '=' (pyStripData l.data) = none
        ↔ (pyStripData l.data).contains '=' = false)
    ∧ (∀ w : List Char, stripQuotesData (('"' :: w) ++ ['"']) = w)
    ∧ (∀ w : List Char, stripQuotesData (('\'' :: w) ++ ['\'']) = w)
    ∧ stripQuotesData ['"'] = [] ∧ stripQuotesData ['\''] = [] := by
  refine ⟨?_, ?_, ?_, ?_, ?_, ?_, splitFirstAux_none_iff '=' (pyStripData l.data),
    ?_, ?_, by decide, by decide⟩
  · intro h
    rw [parse_properties_file_append, h]
  · intro k v h
    rw [parse_properties_file_append, h]
  · intro h
    rw [parse_properties_file_append, h]
  · intro h
    rcases h with h | h
    · simp [processLine, h]
    · by_cases he : pyStripData l.data = []
      · simp [processLine, he]
      · simp [processLine, he, h]
  · intro k v hs hne hh
    simp [processLine, hne, hh, hs]
  · intro hs hne hh
    simp [processLine, hne, hh, hs]
  · intro w
    have h1 : headIs (('"' :: w) ++ ['"']) '"' = true := by simp [headIs]
    have h2 : lastIs (('"' :: w) ++ ['"']) '"' = true := by
      unfold lastIs
      rw [List.getLast?_concat]
      simp
    unfold stripQuotesData
    rw [if_pos (by rw [h1, h2]; rfl)]
    show (w ++ ['"']).dropLast = w
    exact List.dropLast_concat
  · intro w
    have h0 : headIs (('\'' :: w) ++ ['\'']) '"' = false := by simp [headIs]
    have h1 : headIs (('\'' :: w) ++ ['\'']) '\'' = true := by simp [headIs]
    have h2 : lastIs (('\'' :: w) ++ ['\'']) '\'' = true := by
      unfold lastIs
      rw [List.getLast?_concat]
      simp
    unfold stripQuotesData
    rw [if_neg (by rw [h0]; simp)]
    rw [if_pos (by rw [h1, h2]; rfl)]
    show (w ++ ['\'']).dropLast = w
    exact List.dropLast_concat

/-- Closed instance of the amended C7 characterization: a quoted value with
surrounding blanks parses to the stripped, unquoted pair. -/
theorem parse_properties_file_characterization_witness :
    parse_properties_file ["a = 'hi'"] = ([("a", "hi")], 0) := by
  have h := (parse_properties_file_characterization [] "a = 'hi'").2.1 "a" "hi" (by decide)
  simpa [parse_properties_file] using h

/-! ### Claims C2 and C3: layered precedence and secret isolation -/

theorem load_properties_lines_eq (dl ol sl : List String) (env : List (String × String)) :
    load_properties (.lines dl) (some (.lines ol)) env (some (.lines sl))
      = .ok ⟨(secretsSplit (parse_properties_file sl).1
                (envMerge env (storeFold (parse_properties_file ol).1
                  (storeFold (parse_properties_file dl).1 Store.empty)))).1,
             (secretsSplit (parse_properties_file sl).1
                (envMerge env (storeFold (parse_properties_file ol).1
                  (storeFold (parse_properties_file dl).1 Store.empty)))).2,
             []⟩ := rfl

theorem load_properties_no_secrets_eq (dl ol : List String) (env : List (String × String)) :
    load_properties (.lines dl) (some (.lines ol)) env none
      = .ok ⟨envMerge env (storeFold (parse_properties_file ol).1
               (storeFold (parse_properties_file dl).1 Store.empty)),
             Store.empty, []⟩ := rfl

theorem lookupLast_filter_not_secret (k : String) (hmark : is_secret_key k = true)
    (l : List (String × String)) :
    lookupLast (l.filter fun kv => !is_secret_key kv.1) k = none := by
  induction l with
  | nil => rfl
  | cons kv t ih =>
    by_cases h : is_secret_key kv.1 = true
    · simp [List.filter_cons, h, ih]
    · have hf : is_secret_key kv.1 = false := by
        cases hx : is_secret_key kv.1 <;> simp_all
      have hk : kv.1 ≠ k := by
        intro he
        rw [he, hmark] at hf
        cases hf
      simp [List.filter_cons, hf, lookupLast, ih, hk, oor_none]

theorem lookupLast_filter_secret (k : String) (hmark : is_secret_key k = true)
    (l : List (String × String)) :
    lookupLast (l.filter fun kv => is_secret_key kv.1) k = lookupLast l k := by
  induction l with
  | nil => rfl
  | cons kv t ih =>
    by_cases h : is_secret_key kv.1 = true
    · simp only [List.filter_cons, h, if_true, lookupLast, ih]
    · have hf : is_secret_key kv.1 = false := by
        cases hx : is_secret_key kv.1 <;> simp_all
      have hk : kv.1 ≠ k := by
        intro he
        rw [he, hmark] at hf
        cases hf
      simp [List.filter_cons, hf, lookupLast, ih, hk, oor_none]

/-- C2: every key of the mapping `load_properties` returns takes its value from
the highest layer supplying it, with precedence (lowest to highest) default
file, override file, process environment, non-secret keys of the secrets file;
an environment variable whose value contains `$` is skipped entirely, and
`_dot_` in an environment variable's name becomes `.` in the resulting key. -/
theorem load_properties_precedence (dl ol sl : List String)
    (env : List (String × String)) (k : String) :
    configOf (load_properties (.lines dl) (some (.lines ol)) env (some (.lines sl))) k
      = oor (lookupLast ((parse_properties_file sl).1.filter fun kv => !is_secret_key kv.1) k)
          (oor (lookupLast (envEffective env) k)
            (oor (lookupLast (parse_properties_file ol).1 k)
              (lookupLast (parse_properties_file dl).1 k)))
    ∧ (∀ n v, pyHasChar v '$' = true → envEffective [(n, v)] = [])
    ∧ (∀ n v, pyHasChar v '$' = false →
        envEffective [(n, v)] = [(pyReplace n "_dot_" ".", v)]) := by
  refine ⟨?_, ?_, ?_⟩
  · rw [load_properties_lines_eq]
    show (secretsSplit (parse_properties_file sl).1
        (envMerge env (storeFold (parse_properties_file ol).1
          (storeFold (parse_properties_file dl).1 Store.empty)))).1 k = _
    unfold secretsSplit
    rw [secretsSplit_config]
    rw [envMerge_eq_storeFold, storeFold_apply, storeFold_apply, storeFold_apply]
    simp [Store.empty, oor_none]
  · intro n v h
    simp [envEffective, List.filterMap_cons, h]
  · intro n v h
    simp [envEffective, List.filterMap_cons, h]

/-- Closed instance of C2: the non-secret key of the secrets file beats the
environment, the environment beats the override file, `_dot_` is translated,
and a `$`-valued variable is skipped. -/
theorem load_properties_precedence_witness :
    configOf (load_properties (.lines ["a=1", "b=2"]) (some (.lines ["a=3"]))
        [("b", "4"), ("c_dot_d", "$x"), ("c_dot_d", "5")]
        (some (.lines ["MY_SECRET=s", "b=6"]))) "b" = some "6"
    ∧ configOf (load_properties (.lines ["a=1", "b=2"]) (some (.lines ["a=3"]))
        [("b", "4"), ("c_dot_d", "$x"), ("c_dot_d", "5")]
        (some (.lines ["MY_SECRET=s", "b=6"]))) "a" = some "3"
    ∧ configOf (load_properties (.lines ["a=1", "b=2"]) (some (.lines ["a=3"]))
        [("b", "4"), ("c_dot_d", "$x"), ("c_dot_d", "5")]
        (some (.lines ["MY_SECRET=s", "b=6"]))) "c.d" = some "5"
    ∧ envEffective [("c_dot_d", "$x")] = [] := by
  refine ⟨?_, ?_, ?_,
    (load_properties_precedence ["a=1", "b=2"] ["a=3"] ["MY_SECRET=s", "b=6"]
      [("b", "4"), ("c_dot_d", "$x"), ("c_dot_d", "5")] "b").2.1 "c_dot_d" "$x" (by decide)⟩
  · rw [(load_properties_precedence ["a=1", "b=2"] ["a=3"] ["MY_SECRET=s", "b=6"]
      [("b", "4"), ("c_dot_d", "$x"), ("c_dot_d", "5")] "b").1]
    decide
  · rw [(load_properties_precedence ["a=1", "b=2"] ["a=3"] ["MY_SECRET=s", "b=6"]
      [("b", "4"), ("c_dot_d", "$x"), ("c_dot_d", "5")] "a").1]
    decide
  · rw [(load_properties_precedence ["a=1", "b=2"] ["a=3"] ["MY_SECRET=s", "b=6"]
      [("b", "4"), ("c_dot_d", "$x"), ("c_dot_d", "5")] "c.d").1]
    decide

/-- C3: a key carrying the secret marker (`SECRET` in its uppercased name)
that is placed in the secrets file ends up only in the private secret store:
`get_secret` returns its value, the public configuration is exactly what the
remaining layers produce (so the public getters never see the secret value),
`get_secret` reads nothing but the private store, the public getter reads
nothing but the public store, and `get_secret` on a key absent from the
private store returns `None`. -/
theorem secrets_isolation (dl ol sl : List String) (env : List (String × String))
    (k v : String)
    (hmark : is_secret_key k = true)
    (hlast : lookupLast (parse_properties_file sl).1 k = some v) :
    get_secret (loadOutD (load_properties (.lines dl) (some (.lines ol)) env
        (some (.lines sl)))) k = some v
    ∧ configOf (load_properties (.lines dl) (some (.lines ol)) env (some (.lines sl))) k
        = configOf (load_properties (.lines dl) (some (.lines ol)) env none) k
    ∧ (∀ k', (loadOutD (load_properties (.lines dl) (some (.lines ol)) env
          (some (.lines sl)))).secret_config k' = none →
        get_secret (loadOutD (load_properties (.lines dl) (some (.lines ol)) env
          (some (.lines sl)))) k' = none)
    ∧ (∀ k', get_secret (loadOutD (load_properties (.lines dl) (some (.lines ol)) env
          (some (.lines sl)))) k'
        = (loadOutD (load_properties (.lines dl) (some (.lines ol)) env
            (some (.lines sl)))).secret_config k')
    ∧ (∀ (c : Store) (k' : String) (fb : Option String),
        get_property (some c) k' fb = oor (c k') fb) := by
  have hsec : (loadOutD (load_properties (.lines dl) (some (.lines ol)) env
      (some (.lines sl)))).secret_config k = some v := by
    rw [load_properties_lines_eq]
    show (secretsSplit (parse_properties_file sl).1
        (envMerge env (storeFold (parse_properties_file ol).1
          (storeFold (parse_properties_file dl).1 Store.empty)))).2 k = some v
    unfold secretsSplit
    rw [secretsSplit_secret, lookupLast_filter_secret k hmark, hlast]
    rfl
  refine ⟨?_, ?_, ?_, ?_, ?_⟩
  · unfold get_secret
    rw [hsec]
  · rw [load_properties_lines_eq, load_properties_no_secrets_eq]
    show (secretsSplit (parse_properties_file sl).1
        (envMerge env (storeFold (parse_properties_file ol).1
          (storeFold (parse_properties_file dl).1 Store.empty)))).1 k
      = envMerge env (storeFold (parse_properties_file ol).1
          (storeFold (parse_properties_file dl).1 Store.empty)) k
    unfold secretsSplit
    rw [secretsSplit_config, lookupLast_filter_not_secret k hmark]
    rfl
  · intro k' h
    unfold get_secret
    rw [h]
  · intro k'
    unfold get_secret
    cases h : (loadOutD (load_properties (.lines dl) (some (.lines ol)) env
        (some (.lines sl)))).secret_config k' <;> rfl
  · intro c k' fb
    unfold get_property oor
    cases h : c k' <;> simp [h]

/-- Closed instance of C3: the marked key of the secrets file is visible only
through `get_secret`; the public view at that key is what the other layers
give (here: nothing), and an unmarked key is not in the secret store. -/
theorem secrets_isolation_witness :
    get_secret (loadOutD (load_properties (.lines ["a=1"]) (some (.lines [])) []
        (some (.lines ["DB_SECRET=hush", "plain=1"])))) "DB_SECRET" = some "hush"
    ∧ configOf (load_properties (.lines ["a=1"]) (some (.lines [])) []
        (some (.lines ["DB_SECRET=hush", "plain=1"]))) "DB_SECRET"
      = configOf (load_properties (.lines ["a=1"]) (some (.lines [])) [] none) "DB_SECRET"
    ∧ get_secret (loadOutD (load_properties (.lines ["a=1"]) (some (.lines [])) []
        (some (.lines ["DB_SECRET=hush", "plain=1"])))) "plain" = none :=
  ⟨(secrets_isolation ["a=1"] [] ["DB_SECRET=hush", "plain=1"] [] "DB_SECRET" "hush"
      (by decide) (by decide)).1,
   (secrets_isolation ["a=1"] [] ["DB_SECRET=hush", "plain=1"] [] "DB_SECRET" "hush"
      (by decide) (by decide)).2.1,
   (secrets_isolation ["a=1"] [] ["DB_SECRET=hush", "plain=1"] [] "DB_SECRET" "hush"
      (by decide) (by decide)).2.2.1 "plain" (by decide)⟩

/-! ### Claim C5: default file mandatory, override/secrets files optional -/

/-- C5: `load_properties` raises when the default file is absent or unreadable;
a specified override or secrets file that does not exist only logs a warning,
does not raise, and leaves the result exactly what the remaining layers
produce. -/
theorem load_properties_error_handling (dl : List String) (o s : Option FileSt)
    (env : List (String × String)) (k : String) :
    load_properties .absent o env s = .error .defaultMissing
    ∧ load_properties .unreadable o env s = .error .defaultUnreadable
    ∧ (s ≠ some .unreadable →
        isErr (load_properties (.lines dl) (some .absent) env s) = false)
    ∧ configOf (load_properties (.lines dl) (some .absent) env s) k
        = configOf (load_properties (.lines dl) none env s) k
    ∧ (s ≠ some .unreadable →
        LoadWarn.overrideMissing
          ∈ (loadOutD (load_properties (.lines dl) (some .absent) env s)).warns)
    ∧ (o ≠ some .unreadable →
        isErr (load_properties (.lines dl) o env (some .absent)) = false)
    ∧ configOf (load_properties (.lines dl) o env (some .absent)) k
        = configOf (load_properties (.lines dl) o env none) k
    ∧ (o ≠ some .unreadable →
        LoadWarn.secretsMissing
          ∈ (loadOutD (load_properties (.lines dl) o env (some .absent))).warns) := by
  refine ⟨rfl, rfl, ?_, ?_, ?_, ?_, ?_, ?_⟩
  · intro hs
    match s with
    | none => rfl
    | some .absent => rfl
    | some .unreadable => exact absurd rfl hs
    | some (.lines sl) => rfl
  · match s with
    | none => rfl
    | some .absent => rfl
    | some .unreadable => rfl
    | some (.lines sl) => rfl
  · intro hs
    match s with
    | none => simp [load_properties, loadOutD]
    | some .absent => simp [load_properties, loadOutD]
    | some .unreadable => exact absurd rfl hs
    | some (.lines sl) => simp [load_properties, loadOutD]
  · intro ho
    match o with
    | none => rfl
    | some .absent => rfl
    | some .unreadable => exact absurd rfl ho
    | some (.lines ol) => rfl
  · match o with
    | none => rfl
    | some .absent => rfl
    | some .unreadable => rfl
    | some (.lines ol) => rfl
  · intro ho
    match o with
    | none => simp [load_properties, loadOutD]
    | some .absent => simp [load_properties, loadOutD]
    | some .unreadable => exact absurd rfl ho
    | some (.lines ol) => simp [load_properties, loadOutD]

/-- Closed instance of C5: a missing default file raises, a specified but
missing override file does not and leaves the default layer intact. -/
theorem load_properties_error_handling_witness :
    load_properties .absent none [] none = .error .defaultMissing
    ∧ isErr (load_properties (.lines ["a=1"]) (some .absent) [] none) = false
    ∧ configOf (load_properties (.lines ["a=1"]) (some .absent) [] none) "a" = some "1" :=
  ⟨(load_properties_error_handling ["a=1"] none none [] "a").1,
   (load_properties_error_handling ["a=1"] none none [] "a").2.2.1 (by decide),
   by
     rw [(load_properties_error_handling ["a=1"] none none [] "a").2.2.2.1]
     decide⟩

/-! ### Claim C9: set/get round trip -/

/-- C9 counterexample: before any `load_properties` call the module-level
`config` is `None`; `set_property` is then a silent no-op and the immediately
following `get_property` returns the (`None`) fallback, not the stored value. -/
theorem set_get_roundtrip_cex :
    get_property (set_property none "a" "b") "a" none ≠ some "b" := by
  decide

/-- C9 (amended): once the configuration object exists (`load_properties` has
run, so `config` is not `None`), `set_property k v` immediately followed by
`get_property k` returns `v`. -/
theorem set_get_roundtrip (c : Store) (k v : String) (fb : Option String) :
    get_property (set_property (some c) k v) k fb = some v := by
  simp [get_property, set_property, Store.set]

/-! ### Claim C6: typed getters never raise and fall back on coercion failure -/

/-- C6: the typed getters return the fallback when the key is absent from the
public store (including when `config` is still `None`) and when the stored
value cannot be coerced, and never raise (they are total functions by
construction, with the `ValueError` branch mapped to the fallback); boolean
coercion yields true exactly on the case-insensitive values true/1/yes/on,
false exactly on false/0/no/off, and the fallback on everything else. -/
theorem typed_getters_fallback (c : Store) (k v : String)
    (fbS : Option String) (fbI : Int) (fbB : Bool) (fbF : PyFloat) :
    (get_property none k fbS = fbS ∧ get_int_property none k fbI = fbI
      ∧ get_bool_property none k fbB = fbB ∧ get_float_property none k fbF = fbF)
    ∧ (c k = none → get_property (some c) k fbS = fbS
        ∧ get_int_property (some c) k fbI = fbI
        ∧ get_bool_property (some c) k fbB = fbB
        ∧ get_float_property (some c) k fbF = fbF)
    ∧ (c k = some v → pyInt v = none → get_int_property (some c) k fbI = fbI)
    ∧ (c k = some v → pyFloat v = none → get_float_property (some c) k fbF = fbF)
    ∧ (c k = some v →
        (["true", "1", "yes", "on"] : List String).contains (pyLower v) = true →
        get_bool_property (some c) k fbB = true)
    ∧ (c k = some v →
        (["true", "1", "yes", "on"] : List String).contains (pyLower v) = false →
        (["false", "0", "no", "off"] : List String).contains (pyLower v) = true →
        get_bool_property (some c) k fbB = false)
    ∧ (c k = some v →
        (["true", "1", "yes", "on"] : List String).contains (pyLower v) = false →
        (["false", "0", "no", "off"] : List String).contains (pyLower v) = false →
        get_bool_property (some c) k fbB = fbB) := by
  refine ⟨⟨rfl, rfl, rfl, rfl⟩, ?_, ?_, ?_, ?_, ?_, ?_⟩
  · intro h
    refine ⟨?_, ?_, ?_, ?_⟩ <;>
      simp [get_property, get_int_property, get_bool_property, get_float_property, h]
  · intro h1 h2
    simp [get_int_property, h1, h2]
  · intro h1 h2
    simp [get_float_property, h1, h2]
  · intro h1 h2
    have hb : get_bool_property (some c) k fbB
        = (if (["true", "1", "yes", "on"] : List String).contains (pyLower v) = true then true
           else if (["false", "0", "no", "off"] : List String).contains (pyLower v) = true
             then false
           else fbB) := by
      unfold get_bool_property
      show (match c k with
            | some v =>
              let lv := pyLower v
              if (["true", "1", "yes", "on"] : List String).contains lv = true then true
              else if (["false", "0", "no", "off"] : List String).contains lv = true then false
              else fbB
            | none => fbB) = _
      rw [h1]
    rw [hb, if_pos h2]
  · intro h1 h2 h3
    have hb : get_bool_property (some c) k fbB
        = (if (["true", "1", "yes", "on"] : List String).contains (pyLower v) = true then true
           else if (["false", "0", "no", "off"] : List String).contains (pyLower v) = true
             then false
           else fbB) := by
      unfold get_bool_property
      show (match c k with
            | some v =>
              let lv := pyLower v
              if (["true", "1", "yes", "on"] : List String).contains lv = true then true
              else if (["false", "0", "no", "off"] : List String).contains lv = true then false
              else fbB
            | none => fbB) = _
      rw [h1]
    rw [hb, if_neg (by rw [h2]; exact Bool.false_ne_true), if_pos h3]
  · intro h1 h2 h3
    have hb : get_bool_property (some c) k fbB
        = (if (["true", "1", "yes", "on"] : List String).contains (pyLower v) = true then true
           else if (["false", "0", "no", "off"] : List String).contains (pyLower v) = true
             then false
           else fbB) := by
      unfold get_bool_property
      show (match c k with
            | some v =>
              let lv := pyLower v
              if (["true", "1", "yes", "on"] : List String).contains lv = true then true
              else if (["false", "0", "no", "off"] : List String).contains lv = true then false
              else fbB
            | none => fbB) = _
      rw [h1]
    rw [hb, if_neg (by rw [h2]; exact Bool.false_ne_true), if_neg (by rw [h3]; exact Bool.false_ne_true)]

/-- Closed instance of C6: stored value On yields true, 0 yields false, maybe
yields the fallback, and a non-numeric value makes the integer getter fall
back. -/
theorem typed_getters_fallback_witness :
    get_bool_property (some (((Store.empty.set "x" "On").set "y" "0").set "z" "maybe"))
        "x" false = true
    ∧ get_bool_property (some (((Store.empty.set "x" "On").set "y" "0").set "z" "maybe"))
        "y" true = false
    ∧ get_bool_property (some (((Store.empty.set "x" "On").set "y" "0").set "z" "maybe"))
        "z" true = true
    ∧ get_int_property (some (Store.empty.set "w" "12px")) "w" 7 = 7 :=
  ⟨(typed_getters_fallback (((Store.empty.set "x" "On").set "y" "0").set "z" "maybe")
      "x" "On" none 0 false .nan).2.2.2.2.1 (by decide) (by decide),
   (typed_getters_fallback (((Store.empty.set "x" "On").set "y" "0").set "z" "maybe")
      "y" "0" none 0 true .nan).2.2.2.2.2.1 (by decide) (by decide) (by decide),
   (typed_getters_fallback (((Store.empty.set "x" "On").set "y" "0").set "z" "maybe")
      "z" "maybe" none 0 true .nan).2.2.2.2.2.2 (by decide) (by decide) (by decide),
   (typed_getters_fallback (Store.empty.set "w" "12px") "w" "12px" none 7 false .nan).2.2.1
      (by decide) (by decide)⟩

/-! ### Claims C1, C4, C10: `infer_query` parameter overlay and retry loop -/

theorem infer_query_eq (st : BaseLLMState) (model? : Option String)
    (temperature? : Option ℚ) (max_tokens? : Option Int) (max_retries? : Option Int)
    (call : EffectiveParams → Nat → Except String LLMResponse)
    (hinit : st.initialized = true) :
    infer_query st model? temperature? max_tokens? max_retries? call
      = .ok (handle_retry_logic is_retryable_error st.retry_delay
          (call (effective_params st model? temperature? max_tokens? max_retries?))
          (effective_params st model? temperature? max_tokens? max_retries?).max_retries) := by
  unfold infer_query
  rw [hinit]
  rfl

/-- C1: with effective max retries N the executor runs the provider call at
most N times; a call that always raises a retryable error (classified by
substring match against the pattern list) runs exactly N times with N-1 sleeps
of the configured delay and ends in the wrapping exhausted-retries error
carrying the last cause; a call that first raises a non-retryable error
propagates it unwrapped after exactly 1 attempt and 0 sleeps; a call that
succeeds on attempt j after j retryable failures returns that success with j
sleeps. -/
theorem infer_query_retry_semantics (st : BaseLLMState) (model? : Option String)
    (temperature? : Option ℚ) (max_tokens? : Option Int) (max_retries? : Option Int)
    (call : EffectiveParams → Nat → Except String LLMResponse)
    (hinit : st.initialized = true) (N : Nat)
    (hN : (effective_params st model? temperature? max_tokens? max_retries?).max_retries.toNat
        = N) :
    (∀ tr, infer_query st model? temperature? max_tokens? max_retries? call = .ok tr →
        tr.attempts ≤ N)
    ∧ (∀ errF : Nat → String,
        (∀ j, call (effective_params st model? temperature? max_tokens? max_retries?) j
            = .error (errF j) ∧ is_retryable_error (errF j) = true) →
        1 ≤ N →
        infer_query st model? temperature? max_tokens? max_retries? call
          = .ok ⟨.exhausted (errF (N - 1)), N, List.replicate (N - 1) st.retry_delay⟩)
    ∧ (∀ e, call (effective_params st model? temperature? max_tokens? max_retries?) 0
          = .error e →
        is_retryable_error e = false → 1 ≤ N →
        infer_query st model? temperature? max_tokens? max_retries? call
          = .ok ⟨.raised e, 1, []⟩)
    ∧ (∀ (a : LLMResponse) (errF : Nat → String) (j : Nat), j < N →
        (∀ t, t < j →
          call (effective_params st model? temperature? max_tokens? max_retries?) t
              = .error (errF t)
            ∧ is_retryable_error (errF t) = true) →
        call (effective_params st model? temperature? max_tokens? max_retries?) j = .ok a →
        infer_query st model? temperature? max_tokens? max_retries? call
          = .ok ⟨.ok a, j + 1, List.replicate j st.retry_delay⟩) := by
  refine ⟨?_, ?_, ?_, ?_⟩
  · intro tr htr
    rw [infer_query_eq st model? temperature? max_tokens? max_retries? call hinit] at htr
    have h := (Except.ok.injEq _ _).mp htr.symm
    rw [h]
    unfold handle_retry_logic
    rw [hN]
    exact retryAux_attempts_le _ _ _ N 0
  · intro errF hfail hN1
    rw [infer_query_eq st model? temperature? max_tokens? max_retries? call hinit]
    unfold handle_retry_logic
    rw [hN]
    rw [retryAux_all_retryable _ _ _ errF hfail N 0 hN1]
    rw [Nat.zero_add]
  · intro e h0 hnr hN1
    rw [infer_query_eq st model? temperature? max_tokens? max_retries? call hinit]
    unfold handle_retry_logic
    rw [hN]
    obtain ⟨r, hr⟩ : ∃ r, N = r + 1 := ⟨N - 1, by omega⟩
    rw [hr, retryAux_first_not_retryable is_retryable_error st.retry_delay
      (call (effective_params st model? temperature? max_tokens? max_retries?)) 0 r e h0 hnr]
  · intro a errF j hj hfail hok
    rw [infer_query_eq st model? temperature? max_tokens? max_retries? call hinit]
    unfold handle_retry_logic
    rw [hN]
    have h1 : ∀ t, t < j →
        call (effective_params st model? temperature? max_tokens? max_retries?) (0 + t)
            = .error (errF (0 + t))
          ∧ is_retryable_error (errF (0 + t)) = true := by
      intro t ht
      rw [Nat.zero_add]
      exact hfail t ht
    have h2 : call (effective_params st model? temperature? max_tokens? max_retries?) (0 + j)
        = .ok a := by
      rw [Nat.zero_add]
      exact hok
    rw [retryAux_success_after is_retryable_error st.retry_delay
      (call (effective_params st model? temperature? max_tokens? max_retries?))
      errF a j 0 N hj h1 h2]

/-- Closed instance of C1: a call that always fails with a rate-limit message
under max retries 3 runs 3 times, sleeps twice for the configured 60 seconds,
and ends in the wrapped exhausted error. -/
theorem infer_query_retry_semantics_witness :
    infer_query ⟨"gpt-4o", 60, 3, 4096, 0, true⟩ none none none none
        (fun _ _ => .error "Rate limit reached for tokens")
      = .ok ⟨.exhausted "Rate limit reached for tokens", 3, [60, 60]⟩
    ∧ infer_query ⟨"gpt-4o", 60, 3, 4096, 0, true⟩ none none none none
        (fun _ _ => .error "Invalid request")
      = .ok ⟨.raised "Invalid request", 1, []⟩ := by
  constructor
  · have hx : is_retryable_error "Rate limit reached for tokens" = true := by decide
    have h := (infer_query_retry_semantics ⟨"gpt-4o", 60, 3, 4096, 0, true⟩
        none none none none (fun _ _ => .error "Rate limit reached for tokens")
        rfl 3 rfl).2.1
        (fun _ => "Rate limit reached for tokens")
        (fun _ => ⟨rfl, hx⟩) (by decide)
    exact h
  · have h := (infer_query_retry_semantics ⟨"gpt-4o", 60, 3, 4096, 0, true⟩
        none none none none (fun _ _ => .error "Invalid request")
        rfl 3 rfl).2.2.1
        "Invalid request" rfl (by decide) (by decide)
    exact h

/-- C10: on an initialized client, an effective max retries of 0 or less makes
the `for attempt in range(retries)` loop body never run, so `infer_query`
performs zero provider-call attempts and falls off the end of
`_handle_retry_logic`, returning Python `None` — no response and no error. -/
theorem infer_query_nonpositive_retries (st : BaseLLMState) (model? : Option String)
    (temperature? : Option ℚ) (max_tokens? : Option Int) (max_retries? : Option Int)
    (call : EffectiveParams → Nat → Except String LLMResponse)
    (hinit : st.initialized = true)
    (hr : (effective_params st model? temperature? max_tokens? max_retries?).max_retries ≤ 0) :
    infer_query st model? temperature? max_tokens? max_retries? call
      = .ok ⟨.noneResult, 0, []⟩ := by
  rw [infer_query_eq st model? temperature? max_tokens? max_retries? call hinit]
  unfold handle_retry_logic
  rw [Int.toNat_of_nonpos hr]
  rfl

/-- Closed instance of C10: a per-call retry override of 0 yields zero
attempts and the `None` result even though the call itself would fail. -/
theorem infer_query_nonpositive_retries_witness :
    infer_query ⟨"gpt-4o", 60, 5, 4096, 0, true⟩ none none none (some 0)
        (fun _ _ => .error "Rate limit reached for tokens")
      = .ok ⟨.noneResult, 0, []⟩ :=
  infer_query_nonpositive_retries ⟨"gpt-4o", 60, 5, 4096, 0, true⟩ none none none (some 0)
    (fun _ _ => .error "Rate limit reached for tokens") rfl (by decide)

/-- C4 counterexample: `actual_max_tokens = max_tokens or self.max_response_tokens`
and `actual_model = model or self.model` use Python truthiness, so the
supplied overrides 0 (max tokens) and the empty string (model) do NOT become
the effective parameters — the instance defaults do. -/
theorem effective_params_falsy_override_cex :
    (effective_params ⟨"gpt-4o", 60, 5, 4096, 0, true⟩ none none (some 0) none).max_tokens
        = 4096
    ∧ (effective_params ⟨"gpt-4o", 60, 5, 4096, 0, true⟩ none none (some 0) none).max_tokens
        ≠ 0
    ∧ (effective_params ⟨"gpt-4o", 60, 5, 4096, 0, true⟩ (some "") none none none).model
        = "gpt-4o"
    ∧ (effective_params ⟨"gpt-4o", 60, 5, 4096, 0, true⟩ (some "") none none none).model
        ≠ "" := by
  refine ⟨by decide, by decide, ?_, ?_⟩ <;> decide

/-- C4 (amended): per-call overrides overlay the instance defaults, with the
effective temperature and retry count equal to every supplied override
(including 0) and the instance default when absent; the effective model and
max tokens equal the supplied override only when it is truthy (non-empty
model, nonzero max tokens), and fall back to the instance default when the
override is absent, the empty string, or 0. -/
theorem effective_params_overlay (st : BaseLLMState) (model? : Option String)
    (temperature? : Option ℚ) (max_tokens? : Option Int) (max_retries? : Option Int) :
    (effective_params st model? temperature? max_tokens? max_retries?).temperature
        = temperature?.getD st.temperature
    ∧ (effective_params st model? temperature? max_tokens? max_retries?).max_retries
        = max_retries?.getD st.max_retries
    ∧ (∀ m, model? = some m → m ≠ "" →
        (effective_params st model? temperature? max_tokens? max_retries?).model = m)
    ∧ (model? = none ∨ model? = some "" →
        (effective_params st model? temperature? max_tokens? max_retries?).model = st.model)
    ∧ (∀ mt, max_tokens? = some mt → mt ≠ 0 →
        (effective_params st model? temperature? max_tokens? max_retries?).max_tokens = mt)
    ∧ (max_tokens? = none ∨ max_tokens? = some 0 →
        (effective_params st model? temperature? max_tokens? max_retries?).max_tokens
          = st.max_response_tokens) := by
  refine ⟨?_, ?_, ?_, ?_, ?_, ?_⟩
  · cases temperature? <;> rfl
  · cases max_retries? <;> rfl
  · intro m hm hne
    subst hm
    simp [effective_params, hne]
  · intro hm
    rcases hm with hm | hm <;> subst hm <;> simp [effective_params]
  · intro mt hmt hne
    subst hmt
    simp [effective_params, hne]
  · intro hmt
    rcases hmt with hmt | hmt <;> subst hmt <;> simp [effective_params]

/-- Closed instance of the amended C4: every truthy override takes effect,
zero retries takes effect, zero max tokens falls back. -/
theorem effective_params_overlay_witness :
    (effective_params ⟨"gpt-4o", 60, 5, 4096, 1, true⟩ (some "gpt-4.1") (some 0) (some 100)
        (some 0)).model = "gpt-4.1"
    ∧ (effective_params ⟨"gpt-4o", 60, 5, 4096, 1, true⟩ (some "gpt-4.1") (some 0) (some 100)
        (some 0)).temperature = 0
    ∧ (effective_params ⟨"gpt-4o", 60, 5, 4096, 1, true⟩ (some "gpt-4.1") (some 0) (some 100)
        (some 0)).max_tokens = 100
    ∧ (effective_params ⟨"gpt-4o", 60, 5, 4096, 1, true⟩ (some "gpt-4.1") (some 0) (some 100)
        (some 0)).max_retries = 0 :=
  ⟨(effective_params_overlay ⟨"gpt-4o", 60, 5, 4096, 1, true⟩ (some "gpt-4.1") (some 0)
      (some 100) (some 0)).2.2.1 "gpt-4.1" rfl (by decide),
   (effective_params_overlay ⟨"gpt-4o", 60, 5, 4096, 1, true⟩ (some "gpt-4.1") (some 0)
      (some 100) (some 0)).1,
   (effective_params_overlay ⟨"gpt-4o", 60, 5, 4096, 1, true⟩ (some "gpt-4.1") (some 0)
      (some 100) (some 0)).2.2.2.2.1 100 rfl (by decide),
   (effective_params_overlay ⟨"gpt-4o", 60, 5, 4096, 1, true⟩ (some "gpt-4.1") (some 0)
      (some 100) (some 0)).2.1⟩

/-! ### Claim C8: credential resolution chain and the initialization guard -/

/-- C8: client construction resolves the API credential through the strict
priority chain — explicit key parameter, explicit key-file parameter, the
`OPENAI_API_KEY` environment variable, then the configuration-referenced key
file — and fails with the credential error when none resolve, leaving no
initialized client; and `infer_query` on a client whose initialization did not
succeed raises the not-initialized error instead of attempting any provider
call. -/
theorem openai_credential_chain (api_key : Option String) (key_file : Option FileRead)
    (env_key : Option String) (config_loaded : Bool) (config_key_file : FileRead) :
    (∀ s, api_key = some s → s ≠ "" →
        initialize_openai_client api_key key_file env_key config_loaded config_key_file
          = .ok s)
    ∧ (truthyStr api_key = false → ∀ s, key_file = some (.content s) → pyStrip s ≠ "" →
        initialize_openai_client api_key key_file env_key config_loaded config_key_file
          = .ok (pyStrip s))
    ∧ (truthyStr api_key = false → key_file = none → ∀ s, env_key = some s → s ≠ "" →
        initialize_openai_client api_key key_file env_key config_loaded config_key_file
          = .ok s)
    ∧ (truthyStr api_key = false → key_file = none → truthyStr env_key = false →
        config_loaded = true → ∀ s, config_key_file = .content s → pyStrip s ≠ "" →
        initialize_openai_client api_key key_file env_key config_loaded config_key_file
          = .ok (pyStrip s))
    ∧ (truthyStr api_key = false → key_file = none → truthyStr env_key = false →
        (config_loaded = false ∨ config_key_file = .missing) →
        initialize_openai_client api_key key_file env_key config_loaded config_key_file
          = .error .noApiKey)
    ∧ (∀ (st : BaseLLMState), st.initialized = false →
        ∀ (model? : Option String) (temperature? : Option ℚ)
          (max_tokens? max_retries? : Option Int)
          (call : EffectiveParams → Nat → Except String LLMResponse),
        infer_query st model? temperature? max_tokens? max_retries? call
          = .error .notInitialized) := by
  refine ⟨?_, ?_, ?_, ?_, ?_, ?_⟩
  · intro s hs hne
    subst hs
    have ht : truthyStr (some s) = true := by simp [truthyStr, hne]
    simp [initialize_openai_client, ht, hne]
  · intro hak s hkf hne
    subst hkf
    simp [initialize_openai_client, hak, hne]
  · intro hak hkf s hs hne
    subst hkf
    subst hs
    have ht : truthyStr (some s) = true := by simp [truthyStr, hne]
    simp [initialize_openai_client, hak, ht, hne]
  · intro hak hkf hek hcl s hckf hne
    subst hkf
    subst hckf
    subst hcl
    simp [initialize_openai_client, hak, hek, hne]
  · intro hak hkf hek hrest
    subst hkf
    rcases hrest with hcl | hckf
    · subst hcl
      simp [initialize_openai_client, hak, hek]
    · subst hckf
      cases hcl : config_loaded <;> simp [initialize_openai_client, hak, hek, hcl]
  · intro st hst model? temperature? max_tokens? max_retries? call
    simp [infer_query, hst]

/-- Closed instance of C8: with no key parameter, no key file, no environment
variable and no configuration-referenced key file, construction fails with the
credential error, and an uninitialized client refuses to infer. -/
theorem openai_credential_chain_witness :
    initialize_openai_client none none none false .missing = .error .noApiKey
    ∧ infer_query ⟨"gpt-4o", 60, 5, 4096, 0, false⟩ none none none none
        (fun _ _ => .error "boom") = .error .notInitialized :=
  ⟨(openai_credential_chain none none none false .missing).2.2.2.2.1
      rfl rfl rfl (Or.inl rfl),
   (openai_credential_chain none none none false .missing).2.2.2.2.2
      ⟨"gpt-4o", 60, 5, 4096, 0, false⟩ rfl none none none none
      (fun _ _ => .error "boom")⟩
